import Mathlib

/-!
Verification development for the TFM NL→Cypher repository.

This file shallowly embeds the query-generation pipeline of the repository
(`utils/text_to_cypher.py`, `tools/eval_questions.py`,
`pages/0_🔎_Consulta.py`) into Lean.  Strings are modelled via their
underlying `List Char`; each Python regular expression used by the code is
implemented as an explicit character scanner whose doc comment quotes the
original pattern.  External collaborators (the graph database and the
OpenAI model) are modelled as parameters: an `ExecOracle` mapping a query
text to `some rowCount` (successful execution) or `none` (the collaborator
raised), and a plain string holding the model's reply.
-/

namespace TFM

/-- Python `\s` on the ASCII repertoire: space, tab, newline, CR, VT, FF. -/
def isSpaceCh (c : Char) : Bool :=
  c = ' ' || c = '\t' || c = '\n' || c = '\r' || c = '\x0b' || c = '\x0c'

def isAsciiUpper (c : Char) : Bool := 'A' ≤ c && c ≤ 'Z'

def isAsciiLower (c : Char) : Bool := 'a' ≤ c && c ≤ 'z'

def isAsciiAlpha (c : Char) : Bool := isAsciiUpper c || isAsciiLower c

def isDigitCh (c : Char) : Bool := '0' ≤ c && c ≤ '9'

/-- The ASCII character class `[A-Za-z0-9_]`. -/
def isAsciiWordChar (c : Char) : Bool := isAsciiAlpha c || isDigitCh c || c = '_'

/-- The accented Spanish letters that occur in this repository's strings. -/
def isAccented (c : Char) : Bool :=
  c = 'á' || c = 'é' || c = 'í' || c = 'ó' || c = 'ú' || c = 'ü' || c = 'ñ' ||
  c = 'Á' || c = 'É' || c = 'Í' || c = 'Ó' || c = 'Ú' || c = 'Ü' || c = 'Ñ'

/-- Python `\w` (letters, digits, underscore), restricted to ASCII plus the
Spanish accented letters occurring in the repository's texts. -/
def isWordChar (c : Char) : Bool := isAsciiWordChar c || isAccented c

/-- Python `str.lower` on the repertoire used by the sources (ASCII plus the
Spanish accented letters). -/
def toLowerCh (c : Char) : Char :=
  if isAsciiUpper c then Char.ofNat (c.toNat + 32)
  else if c = 'Á' then 'á' else if c = 'É' then 'é' else if c = 'Í' then 'í'
  else if c = 'Ó' then 'ó' else if c = 'Ú' then 'ú' else if c = 'Ü' then 'ü'
  else if c = 'Ñ' then 'ñ' else c

/-- The effect of `unicodedata.normalize("NFKD", ·)` followed by dropping
combining marks, on the (already lowercased) Spanish repertoire: accented
vowels lose their accent, `ñ` becomes `n`; everything else is unchanged. -/
def stripAccentCh (c : Char) : Char :=
  if c = 'á' then 'a' else if c = 'é' then 'e' else if c = 'í' then 'i'
  else if c = 'ó' then 'o' else if c = 'ú' then 'u' else if c = 'ü' then 'u'
  else if c = 'ñ' then 'n' else c

def lowerList (cs : List Char) : List Char := cs.map toLowerCh

/-- Python `str.lower` on a whole string. -/
def lowerStr (s : String) : String := ⟨lowerList s.data⟩

/-- Python `str.strip`: drop leading and trailing whitespace. -/
def trimChars (cs : List Char) : List Char :=
  ((cs.dropWhile isSpaceCh).reverse.dropWhile isSpaceCh).reverse

def trimStr (s : String) : String := ⟨trimChars s.data⟩

/-- Prefix test `isPref p s`: `p` is a (character-exact) prefix of `s`. -/
def isPref : List Char → List Char → Bool
  | [], _ => true
  | _ :: _, [] => false
  | p :: ps, c :: cs => p = c && isPref ps cs

/-- Python substring containment: `hasSub needle hay` is `needle in hay`. -/
def hasSub (needle : List Char) : List Char → Bool
  | [] => isPref needle []
  | c :: rest => isPref needle (c :: rest) || hasSub needle rest

/-- Substring containment `pat in hay` for strings (argument order: haystack first). -/
def containsSubstr (hay pat : String) : Bool := hasSub pat.data hay.data

/-- Match a literal (case-exact), returning the rest of the input. -/
def dropLit : List Char → List Char → Option (List Char)
  | [], cs => some cs
  | _ :: _, [] => none
  | p :: ps, c :: cs => if p = c then dropLit ps cs else none

/-- Match a lowercase literal case-insensitively, returning the rest. -/
def dropLitCI : List Char → List Char → Option (List Char)
  | [], cs => some cs
  | _ :: _, [] => none
  | p :: ps, c :: cs => if toLowerCh c = p then dropLitCI ps cs else none

/-- Match a variable name case-insensitively (both sides lowered). -/
def dropVarCI : List Char → List Char → Option (List Char)
  | [], cs => some cs
  | _ :: _, [] => none
  | v :: vs, c :: cs => if toLowerCh c = toLowerCh v then dropVarCI vs cs else none

/-- A `\b` word boundary holds after a word character at this position:
the next character is absent or not a word character. -/
def atBoundary : List Char → Bool
  | [] => true
  | c :: _ => !isWordChar c

/-- Matcher for `\s+`: require at least one whitespace character, consume the run. -/
def wsOne : List Char → Option (List Char)
  | c :: rest => if isSpaceCh c then some (rest.dropWhile isSpaceCh) else none
  | [] => none

-- ---------------------------------------------------------------------------
-- Safety validator
-- ---------------------------------------------------------------------------

/-- The deny list of `is_safe_cypher` (tools/eval_questions.py:45 and
pages/0_🔎_Consulta.py:99): tokens are space-padded literals. -/
def badTokens : List String :=
  [" create ", " merge ", " delete ", " set ", " detach ", " drop ",
   " load csv", " call db.", " call apoc.create"]

/-- Padding of `is_safe_cypher`: one space is added on each side of the
lowercased query text. -/
def paddedLower (cy : String) : List Char :=
  ' ' :: (lowerList cy.data ++ [' '])

/-- Model of `is_safe_cypher` (tools/eval_questions.py:43, pages/0_🔎_Consulta.py:97):
true iff no deny-list token is a substring of the space-padded lowercase
query text. -/
def isSafeCypher (cy : String) : Bool :=
  !(badTokens.any fun tok => hasSub tok.data (paddedLower cy))

-- ---------------------------------------------------------------------------
-- Metrics
-- ---------------------------------------------------------------------------

/-- Python `len(s) or 1`. -/
def orOne (n : Nat) : Nat := if n = 0 then 1 else n

/-- Model of `prf` (tools/eval_questions.py:319): precision, recall, F1 of a predicted
identifier set against a gold identifier set, with the source's exact
branch structure (including the `1.0 if pred else 1.0` expression). -/
def prf (pred gold : Finset String) : ℚ × ℚ × ℚ :=
  if gold = ∅ ∧ pred = ∅ then (1, 1, 1)
  else if gold = ∅ then (0, if pred ≠ ∅ then 1 else 1, 0)
  else
    let tp : ℚ := ((pred ∩ gold).card : ℚ)
    let p : ℚ := tp / (orOne pred.card : ℚ)
    let r : ℚ := tp / (orOne gold.card : ℚ)
    let f1 : ℚ := if p + r = 0 then 0 else 2 * p * r / (p + r)
    (p, r, f1)

-- ---------------------------------------------------------------------------
-- Canonicalizer (`_norm`, `_apply_synonyms`, `_doc_term_from_question`)
-- ---------------------------------------------------------------------------

/-- Model of `re.sub(r"\s+", " ", s)`: collapse every whitespace run to one space.
The flag records whether we are inside a run already emitted. -/
def collapseGo : Bool → List Char → List Char
  | _, [] => []
  | inRun, c :: rest =>
    if isSpaceCh c then
      if inRun then collapseGo true rest else ' ' :: collapseGo true rest
    else c :: collapseGo false rest

def collapseWS (cs : List Char) : List Char := collapseGo false cs

/-- Model of `_norm` (utils/text_to_cypher.py:26): lowercase, strip diacritics via
NFKD (modelled by `stripAccentCh` on the Spanish repertoire), replace `-`
by a space, collapse whitespace runs and strip. -/
def normTxt (q : String) : String :=
  let s1 := (q.data.map toLowerCh).map stripAccentCh
  let s2 := s1.map fun c => if c = '-' then ' ' else c
  ⟨trimChars (collapseWS s2)⟩

/-- Test that `w` matches at the head of `cs` and is followed by a `\b` boundary. -/
def wordAt (w cs : List Char) : Bool :=
  match dropLit w cs with
  | some r => atBoundary r
  | none => false

/-- Model of `re.search(r"\bWORD\b", s)` for a literal word of word characters:
some position has a boundary before it and the word (boundary-terminated)
at it. -/
def searchWordGo (w : List Char) : Bool → List Char → Bool
  | _, [] => false
  | prevW, c :: rest =>
    (!prevW && wordAt w (c :: rest)) || searchWordGo w (isWordChar c) rest

def searchWord (s w : String) : Bool := searchWordGo w.data false s.data

/-- Model of `re.search(r"\bROOT\w*", s)`: the root occurs at a word boundary
(the trailing `\w*` always matches). -/
def searchRootGo (w : List Char) : Bool → List Char → Bool
  | _, [] => false
  | prevW, c :: rest =>
    (!prevW && (dropLit w (c :: rest)).isSome) || searchRootGo w (isWordChar c) rest

def searchRootWord (s w : String) : Bool := searchRootGo w.data false s.data

/-- The tail `2016\s*/\s*679` of the third synonym pattern. -/
def reg2016 (cs : List Char) : Bool :=
  match dropLit "2016".data cs with
  | none => false
  | some r =>
    match r.dropWhile isSpaceCh with
    | '/' :: r2 => (dropLit "679".data (r2.dropWhile isSpaceCh)).isSome
    | _ => false

/-- Matcher for `reglamento\s+(ue\s*)?2016\s*/\s*679` at a fixed position; the optional
group is tried greedily first, then without (regex backtracking). -/
def regAt (cs : List Char) : Bool :=
  match dropLit "reglamento".data cs with
  | some (c :: rest) =>
    if isSpaceCh c then
      let r2 := rest.dropWhile isSpaceCh
      match dropLit "ue".data r2 with
      | some r3 => reg2016 (r3.dropWhile isSpaceCh) || reg2016 r2
      | none => reg2016 r2
    else false
  | _ => false

def searchRegGo : List Char → Bool
  | [] => false
  | c :: rest => regAt (c :: rest) || searchRegGo rest

def searchReg (s : String) : Bool := searchRegGo s.data

/-- Matcher for `\blo\s*N\s*/\s*Y\b` at a fixed position (`N`, `Y` digit literals). -/
def loAt (n y cs : List Char) : Bool :=
  match dropLit "lo".data cs with
  | none => false
  | some r1 =>
    match dropLit n (r1.dropWhile isSpaceCh) with
    | none => false
    | some r2 =>
      match r2.dropWhile isSpaceCh with
      | '/' :: r3 =>
        match dropLit y (r3.dropWhile isSpaceCh) with
        | some r4 => atBoundary r4
        | none => false
      | _ => false

def searchLoPatGo (n y : List Char) : Bool → List Char → Bool
  | _, [] => false
  | prevW, c :: rest =>
    (!prevW && loAt n y (c :: rest)) || searchLoPatGo n y (isWordChar c) rest

def searchLoPat (s n y : String) : Bool := searchLoPatGo n.data y.data false s.data

/-- Model of `_apply_synonyms` (utils/text_to_cypher.py:68) over the ordered
`_SYNONYMS` table (utils/text_to_cypher.py:59): the canonical term of the
first matching pattern. -/
def applySynonyms (qn : String) : Option String :=
  if searchWord qn "rgpd" then some "reglamento ue 2016 679"
  else if searchWord qn "gdpr" then some "reglamento ue 2016 679"
  else if searchReg qn then some "reglamento ue 2016 679"
  else if searchLoPat qn "3" "2018" then some "lo 3 2018"
  else if searchLoPat qn "15" "1999" then some "lo 15 1999"
  else if searchWord qn "aepd" then some "aepd"
  else none

/-- Model of `re.search(r'"([^"]+)"', q)`: leftmost quoted fragment with a nonempty
body; an opening quote with no usable body is skipped and the search
continues one position further, as the regex engine does. -/
def findQuotedGo : List Char → Option (List Char)
  | [] => none
  | '"' :: rest =>
    let inner := rest.takeWhile fun c => c ≠ '"'
    if inner ≠ [] ∧ rest.dropWhile (fun c => c ≠ '"') ≠ [] then some inner
    else findQuotedGo rest
  | _ :: rest => findQuotedGo rest

/-- Model of `_doc_term_from_question` (utils/text_to_cypher.py:74): synonym of the
normalized question, else the normalized first quoted fragment, else "". -/
def docTermFromQuestion (q : String) : String :=
  match applySynonyms (normTxt q) with
  | some syn => syn
  | none =>
    match findQuotedGo q.data with
    | some inner => normTxt ⟨inner⟩
    | none => ""

/-- Model of `term.replace(" ", "-")` used to build the id-like slug. -/
def idLikeOf (term : String) : String :=
  ⟨term.data.map fun c => if c = ' ' then '-' else c⟩

/-- Model of `_has_root` (utils/text_to_cypher.py:39): root detection on the
normalized question, with the source's per-root disjunctions. -/
def hasRoot (q root : String) : Bool :=
  let qn := normTxt q
  if root = "modific" then
    containsSubstr qn "modific" || containsSubstr qn "modifi" || searchRootWord qn "modific"
  else if root = "mencion" then
    containsSubstr qn "mencion" || searchRootWord qn "mencion"
  else if root = "derog" then
    containsSubstr qn "derog" || searchRootWord qn "derog"
  else if root = "articul" then
    containsSubstr qn "articul" || searchRootWord qn "articul"
  else if root = "trat" then
    containsSubstr qn "trata" || containsSubstr qn "tema" || containsSubstr qn "materia"
  else containsSubstr qn root

/-- Model of `_rules` (utils/text_to_cypher.py:204), the rule-based NL→Cypher
generator, reached through `gen`/`gen_ex` which the UI and the evaluation
harness call with no `doc_id`.  The returned strings are the source's
f-string templates after `.strip()`. -/
def rulesGen (q : String) : String :=
  let qn := normTxt q
  let term := docTermFromQuestion q
  let idLike := idLikeOf term
  if containsSubstr qn "rgpd" || containsSubstr qn "gdpr" ||
     containsSubstr qn "reglamento 2016 679" then
    "MATCH (d:Documento)-[:MENCIONA]->(e:Entidad)\nWHERE toLower(e.nombre) CONTAINS 'rgpd' OR toLower(coalesce(e.norm,e.nombre)) CONTAINS '2016/679'\nRETURN DISTINCT d.id AS id, d.titulo AS titulo\nORDER BY titulo"
  else if containsSubstr qn "aepd" ||
          containsSubstr qn "agencia espanola de proteccion de datos" then
    "MATCH (d:Documento)-[:MENCIONA]->(e:Entidad)\nWHERE toLower(e.nombre) CONTAINS 'aepd'\nRETURN DISTINCT d.id AS id, d.titulo AS titulo\nORDER BY titulo"
  else if containsSubstr qn "vigent" || containsSubstr qn "actual" then
    "MATCH (d:Documento)\nWHERE coalesce(d.vigente,true) = true\nRETURN DISTINCT d.id AS id, d.titulo AS titulo\nORDER BY titulo"
  else if containsSubstr qn "proteccion de datos" ||
          containsSubstr qn "protección de datos" then
    "MATCH (d:Documento)-[:TRATA_SOBRE]->(t:Tema)\nWHERE toLower(t.nombre) CONTAINS 'proteccion' AND toLower(t.nombre) CONTAINS 'datos'\nRETURN DISTINCT d.id AS id, d.titulo AS titulo\nORDER BY titulo"
  else if hasRoot q "mencion" then
    "MATCH (d:Documento)-[:MENCIONA_DOC|MENCIONA]->(x)\nWHERE toLower(x.id) CONTAINS '" ++ idLike ++ "'\n   OR toLower(coalesce(x.titulo, x.nombre)) CONTAINS '" ++ term ++ "'\nRETURN DISTINCT d.id AS id, d.titulo AS titulo\nORDER BY titulo"
  else if hasRoot q "modific" then
    "MATCH (a:Documento)-[:MODIFICA]->(b:Documento)\nRETURN a.id AS origen, b.id AS destino, 'MODIFICA' AS relacion\nORDER BY origen"
  else if hasRoot q "derog" then
    "MATCH (a:Documento)-[:DEROGA]->(b:Documento)\nRETURN a.id AS origen, b.id AS destino, 'DEROGA' AS relacion\nORDER BY origen"
  else if hasRoot q "articul" then
    "MATCH (d:Documento)-[:TIENE_ARTICULO]->(a:Articulo)\nWHERE toLower(d.id) CONTAINS '" ++ idLike ++ "' OR toLower(d.titulo) CONTAINS '" ++ term ++ "'\nRETURN d.id AS doc, a.numero AS numero, a.titulo AS titulo\nORDER BY toInteger(coalesce(a.numero,'0')) ASC"
  else if containsSubstr qn "proteccion de datos" || hasRoot q "trat" then
    "MATCH (d:Documento)-[:TRATA_SOBRE]->(t:Tema)\nWHERE toLower(t.nombre) CONTAINS 'proteccion' AND toLower(t.nombre) CONTAINS 'datos'\nRETURN d.id AS id, d.titulo AS titulo\nORDER BY titulo"
  else "RETURN 'Pregunta no reconocida' AS aviso"

-- ---------------------------------------------------------------------------
-- Query post-processor 1: `_normalize_return`
-- ---------------------------------------------------------------------------

/-- The negative lookahead `(?!\s*(?:\.|\s+AS))` of `_normalize_return`:
true when the lookahead would hit, i.e. optional whitespace then a dot, or
at least one whitespace then `AS` (case-insensitively, no trailing
boundary in the pattern). -/
def laDotOrAs (cs : List Char) : Bool :=
  let j := cs.dropWhile isSpaceCh
  (match j with | '.' :: _ => true | _ => false) ||
  ((match cs with | c :: _ => isSpaceCh c | [] => false) &&
   (dropLitCI "as".data j).isSome)

/-- The negative lookahead `(?!\s*\.)`: optional whitespace then a dot. -/
def laDot (cs : List Char) : Bool :=
  match cs.dropWhile isSpaceCh with | '.' :: _ => true | _ => false

/-- Matcher for `RETURN\s+DISTINCT\s+` then the alias then
`\b(?!\s*(?:\.|\s+AS))` (case-insensitive)
after the leading `\b`, at a fixed position; returns the rest. -/
def matchRetDist (var cs : List Char) : Option (List Char) := do
  let r1 ← dropLitCI "return".data cs
  let r2 ← wsOne r1
  let r3 ← dropLitCI "distinct".data r2
  let r4 ← wsOne r3
  let r5 ← dropVarCI var r4
  if atBoundary r5 && !laDotOrAs r5 then some r5 else none

/-- Matcher for `RETURN\s+` then the alias then `\b(?!\s*(?:\.|\s+AS))`
(case-insensitive) after the
leading `\b`, at a fixed position. -/
def matchRetPlain (var cs : List Char) : Option (List Char) := do
  let r1 ← dropLitCI "return".data cs
  let r2 ← wsOne r1
  let r5 ← dropVarCI var r2
  if atBoundary r5 && !laDotOrAs r5 then some r5 else none

/-- Matcher for a comma, `\s*`, the alias, then `\b(?!\s*(?:\.|\s+AS))`
(case-insensitive) at a fixed
position (no leading boundary: the pattern starts with a comma). -/
def matchCommaVar (var cs : List Char) : Option (List Char) :=
  match cs with
  | ',' :: r1 =>
    match dropVarCI var (r1.dropWhile isSpaceCh) with
    | some r5 => if atBoundary r5 && !laDotOrAs r5 then some r5 else none
    | none => none
  | _ => none

/-- Matcher for `ORDER\s+BY\s+` then the alias then `\b(?!\s*\.)`
(case-insensitive) after the leading
`\b`, at a fixed position. -/
def matchOrderVar (var cs : List Char) : Option (List Char) := do
  let r1 ← dropLitCI "order".data cs
  let r2 ← wsOne r1
  let r3 ← dropLitCI "by".data r2
  let r4 ← wsOne r3
  let r5 ← dropVarCI var r4
  if atBoundary r5 && !laDot r5 then some r5 else none

/-- Replacement tail `var.id AS id, var.titulo AS titulo` shared by the
replacement texts. -/
def replPair (var : List Char) : List Char :=
  var ++ ".id AS id, ".data ++ var ++ ".titulo AS titulo".data

/-- Model of `re.sub` for a pattern with a leading `\b` before a word character:
scan tracking whether the previous character is a word character, replace
each non-overlapping match (replacements are not rescanned, as in Python),
and continue after the matched span.  After a match the previous original
character is the last character of `var`, a word character. -/
def subPassB (mf : List Char → Option (List Char)) (rep : List Char) :
    Nat → Bool → List Char → List Char
  | 0, _, cs => cs
  | _ + 1, _, [] => []
  | fuel + 1, prevW, c :: rest =>
    if !prevW then
      match mf (c :: rest) with
      | some r => rep ++ subPassB mf rep fuel true r
      | none => c :: subPassB mf rep fuel (isWordChar c) rest
    else c :: subPassB mf rep fuel (isWordChar c) rest

/-- Model of `re.sub` for a pattern with no leading boundary (the comma pattern). -/
def subPassN (mf : List Char → Option (List Char)) (rep : List Char) :
    Nat → List Char → List Char
  | 0, cs => cs
  | _ + 1, [] => []
  | fuel + 1, c :: rest =>
    match mf (c :: rest) with
    | some r => rep ++ subPassN mf rep fuel r
    | none => c :: subPassN mf rep fuel rest

/-- Matcher for `MATCH\s*\(\s*([a-zA-Z][\w]*)\s*:\s*Documento\b`
(case-insensitive)
after the leading `\b`, at a fixed position; returns the captured alias
with its original casing. -/
def matchDocHead (cs : List Char) : Option (List Char) := do
  let r1 ← dropLitCI "match".data cs
  match r1.dropWhile isSpaceCh with
  | '(' :: r3 =>
    match r3.dropWhile isSpaceCh with
    | a :: r5 =>
      if isAsciiAlpha a then
        let var := a :: r5.takeWhile isWordChar
        match (r5.dropWhile isWordChar).dropWhile isSpaceCh with
        | ':' :: r7 =>
          let r9 ← dropLitCI "documento".data (r7.dropWhile isSpaceCh)
          if atBoundary r9 then some var else none
        | _ => none
      else none
    | [] => none
  | _ => none

/-- Model of the `re.search` scan for `matchDocHead` (leading `\b` via `prevW`). -/
def findDocVarGo : Nat → Bool → List Char → Option (List Char)
  | 0, _, _ => none
  | _ + 1, _, [] => none
  | fuel + 1, prevW, c :: rest =>
    if !prevW then
      match matchDocHead (c :: rest) with
      | some v => some v
      | none => findDocVarGo fuel (isWordChar c) rest
    else findDocVarGo fuel (isWordChar c) rest

/-- Model of `_normalize_return` (tools/eval_questions.py:49, pages/0_🔎_Consulta.py:105):
find the first `MATCH (var:Documento)` alias; if none, return the input
unchanged; otherwise apply the four substitutions in the source's order.
The source's `except` branch returns the input unchanged; the model is
total, so that branch has no analogue. -/
def normalizeReturn (cy : String) : String :=
  match findDocVarGo (cy.data.length + 1) false cy.data with
  | none => cy
  | some var =>
    let s1 := subPassB (matchRetDist var) ("RETURN DISTINCT ".data ++ replPair var)
      (cy.data.length + 1) false cy.data
    let s2 := subPassB (matchRetPlain var) ("RETURN ".data ++ replPair var)
      (s1.length + 1) false s1
    let s3 := subPassN (matchCommaVar var) (", ".data ++ replPair var)
      (s2.length + 1) s2
    let s4 := subPassB (matchOrderVar var) "ORDER BY titulo".data
      (s3.length + 1) false s3
    ⟨s4⟩

-- ---------------------------------------------------------------------------
-- Query post-processor 2: `_fix_label_props_to_alias`
-- ---------------------------------------------------------------------------

/-- Matcher for `\b([A-Z][A-Za-z0-9_]*)\.(\w+)\b` (case-sensitive) at a
fixed position
after the leading `\b`: an ASCII-uppercase-initial label run, a dot, and a
nonempty word run (whose maximality gives the trailing `\b`).  Returns
(label, property, rest). -/
def matchLabelDot (cs : List Char) : Option (List Char × List Char × List Char) :=
  match cs with
  | c :: rest =>
    if isAsciiUpper c then
      match rest.dropWhile isAsciiWordChar with
      | '.' :: r3 =>
        if r3.takeWhile isWordChar = [] then none
        else some (c :: rest.takeWhile isAsciiWordChar, r3.takeWhile isWordChar,
                   r3.dropWhile isWordChar)
      | _ => none
    else none
  | [] => none

/-- Matcher for `\(\s*([a-zA-Z][\w]*)\s*:\s*([A-Z][\w]*)\s*\)` at a
fixed position:
a node pattern `(alias:Label)`; returns (alias, label, rest). -/
def matchNodePat (cs : List Char) : Option (List Char × List Char × List Char) :=
  match cs with
  | '(' :: r1 =>
    match r1.dropWhile isSpaceCh with
    | a :: r3 =>
      if isAsciiAlpha a then
        let al := a :: r3.takeWhile isWordChar
        match (r3.dropWhile isWordChar).dropWhile isSpaceCh with
        | ':' :: r5 =>
          match r5.dropWhile isSpaceCh with
          | l :: r7 =>
            if isAsciiUpper l then
              let lab := l :: r7.takeWhile isWordChar
              match (r7.dropWhile isWordChar).dropWhile isSpaceCh with
              | ')' :: r9 => some (al, lab, r9)
              | _ => none
            else none
          | [] => none
        | _ => none
      else none
    | [] => none
  | _ => none

/-- Model of `re.finditer` over `matchNodePat`: all non-overlapping (label, alias)
pairs, left to right. -/
def collectNodePatsGo : Nat → List Char → List (List Char × List Char)
  | 0, _ => []
  | _ + 1, [] => []
  | fuel + 1, c :: rest =>
    match matchNodePat (c :: rest) with
    | some (al, lab, r9) => (lab, al) :: collectNodePatsGo fuel r9
    | none => collectNodePatsGo fuel rest

def collectNodePats (cy : String) : List (List Char × List Char) :=
  collectNodePatsGo (cy.data.length + 1) cy.data

/-- Lookup with `dict.setdefault` semantics: the FIRST binding of a label wins. -/
def lookupFirst (m : List (List Char × List Char)) (k : List Char) :
    Option (List Char) :=
  match m with
  | [] => none
  | (k', v) :: rest => if k' = k then some v else lookupFirst rest k

/-- The `re.sub` of `_fix_label_props_to_alias`: each `Label.prop` match is
replaced by `alias.prop` when the label is bound in the map, else kept
verbatim (`m.group(0)`). -/
def subLDGo (m : List (List Char × List Char)) :
    Nat → Bool → List Char → List Char
  | 0, _, cs => cs
  | _ + 1, _, [] => []
  | fuel + 1, prevW, c :: rest =>
    if !prevW then
      match matchLabelDot (c :: rest) with
      | some (lab, prop, r) =>
        (match lookupFirst m lab with
         | some a => a
         | none => lab) ++ '.' :: (prop ++ subLDGo m fuel true r)
      | none => c :: subLDGo m fuel (isWordChar c) rest
    else c :: subLDGo m fuel (isWordChar c) rest

/-- Model of `_fix_label_props_to_alias` (tools/eval_questions.py:67): build the
label→alias map from the node patterns (first declaration wins), then
rewrite label-qualified field accesses to use the bound alias.  The
source's `except` branch returns the input unchanged; the model is total. -/
def fixLabelProps (cy : String) : String :=
  let m := collectNodePats cy
  ⟨subLDGo m (cy.data.length + 1) false cy.data⟩

-- ---------------------------------------------------------------------------
-- `_enforce_document_return` (gpt engines only)
-- ---------------------------------------------------------------------------

/-- Matcher for `\(\s*([a-zA-Z]\w*)\s*:\s*Documento\b` (case-sensitive):
a node
pattern opening bound to label `Documento`; returns (alias, rest). -/
def matchDocAlias (cs : List Char) : Option (List Char × List Char) :=
  match cs with
  | '(' :: r1 =>
    match r1.dropWhile isSpaceCh with
    | a :: r3 =>
      if isAsciiAlpha a then
        let al := a :: r3.takeWhile isWordChar
        match (r3.dropWhile isWordChar).dropWhile isSpaceCh with
        | ':' :: r5 =>
          match dropLit "Documento".data (r5.dropWhile isSpaceCh) with
          | some r7 => if atBoundary r7 then some (al, r7) else none
          | none => none
        | _ => none
      else none
    | [] => none
  | _ => none

/-- Model of `re.findall` over `matchDocAlias`. -/
def collectDocAliasesGo : Nat → List Char → List (List Char)
  | 0, _ => []
  | _ + 1, [] => []
  | fuel + 1, c :: rest =>
    match matchDocAlias (c :: rest) with
    | some (al, r) => al :: collectDocAliasesGo fuel r
    | none => collectDocAliasesGo fuel rest

/-- Model of `list(dict.fromkeys(aliases))`: dedupe keeping first occurrences. -/
def dedupFirstGo (seen : List (List Char)) : List (List Char) → List (List Char)
  | [] => []
  | a :: rest =>
    if seen.contains a then dedupFirstGo seen rest
    else a :: dedupFirstGo (a :: seen) rest

/-- Matcher for `\bRETURN\b` (case-insensitive) at a fixed position. -/
def matchRetWord (cs : List Char) : Option (List Char) := do
  let r ← dropLitCI "return".data cs
  if atBoundary r then some r else none

/-- Matcher for `\bORDER\s+BY\b` (case-insensitive) at a fixed position. -/
def matchOrderWord (cs : List Char) : Option (List Char) := do
  let r1 ← dropLitCI "order".data cs
  let r2 ← wsOne r1
  let r3 ← dropLitCI "by".data r2
  if atBoundary r3 then some r3 else none

/-- The prefix of the input before the first match of `mf` (which carries a
leading `\b`), or `none` when there is no match. -/
def beforeTok (mf : List Char → Option (List Char)) :
    Nat → Bool → List Char → Option (List Char)
  | 0, _, _ => none
  | _ + 1, _, [] => none
  | fuel + 1, prevW, c :: rest =>
    if !prevW && (mf (c :: rest)).isSome then some []
    else
      match beforeTok mf fuel (isWordChar c) rest with
      | some pre => some (c :: pre)
      | none => none

/-- Model of `_enforce_document_return` (tools/eval_questions.py:332): when the
query binds exactly one distinct `:Documento` alias, strip the query and
replace everything from the first `RETURN` to the end by the standard
two-field projection (`RETURN[\s\S]*?(?=$)` swallows the rest of the
stripped text), then replace everything from the first `ORDER BY` to the
end by `ORDER BY titulo`, or append that clause if absent. -/
def enforceDocumentReturn (cy : String) : String :=
  let aliases := dedupFirstGo [] (collectDocAliasesGo (cy.data.length + 1) cy.data)
  match aliases with
  | [a] =>
    let s := trimChars cy.data
    let s2 := match beforeTok matchRetWord (s.length + 1) false s with
      | some pre => pre ++ "RETURN DISTINCT ".data ++ replPair a
      | none => s
    let s3 := match beforeTok matchOrderWord (s2.length + 1) false s2 with
      | some pre => pre ++ "ORDER BY titulo".data
      | none => s2 ++ "\nORDER BY titulo".data
    ⟨s3⟩
  | _ => cy

-- ---------------------------------------------------------------------------
-- `_fallback_from_question` and its helpers
-- ---------------------------------------------------------------------------

/-- The quote class of the `sobre` pattern: `['\"“”‘’«»]`. -/
def quoteChs : List Char := ['\'', '"', '“', '”', '‘', '’', '«', '»']

/-- Model of `re.search(r"sobre\s+['\"“”‘’«»]?([^'\"“”‘’«»]+)", qn)` at a fixed
position.  The case analysis mirrors the engine's backtracking: greedy
whitespace, then the optional quote, then a nonempty quote-free capture;
when both the quoted and unquoted captures fail, the `\s+` gives one
whitespace character back to the capture class (which admits whitespace),
yielding the single-space capture whenever the run has length ≥ 2. -/
def sobreAt (cs : List Char) : Option (List Char) :=
  match dropLit "sobre".data cs with
  | none => none
  | some r1 =>
    match r1 with
    | c :: _ =>
      if isSpaceCh c then
        let w := r1.takeWhile isSpaceCh
        let z := r1.dropWhile isSpaceCh
        match z with
        | [] => if 2 ≤ w.length then some [' '] else none
        | d :: r2 =>
          if quoteChs.contains d then
            let cap := r2.takeWhile fun e => !quoteChs.contains e
            if cap ≠ [] then some cap
            else if 2 ≤ w.length then some [' '] else none
          else some (z.takeWhile fun e => !quoteChs.contains e)
      else none
    | [] => none

def searchSobreGo : List Char → Option (List Char)
  | [] => none
  | c :: rest =>
    match sobreAt (c :: rest) with
    | some g => some g
    | none => searchSobreGo rest

def strJoinNL : List String → String
  | [] => ""
  | [s] => s
  | s :: t :: rest => s ++ "\n" ++ strJoinNL (t :: rest)

/-- Model of `_lo3_where("WHERE")` (tools/eval_questions.py:82, pages/0:124). -/
def lo3Where : String :=
  "WHERE\n  toLower(d2.id) CONTAINS 'boe-a-2018-16673'\n  OR toLower(d2.titulo) CONTAINS 'lo 3 2018'\n  OR toLower(d2.titulo) CONTAINS 'ley organica 3/2018'\n  OR toLower(d2.titulo) CONTAINS 'ley orgánica 3/2018'"

/-- Model of `_build_theme_fallback_fulltext` (tools/eval_questions.py:89,
pages/0_🔎_Consulta.py:131). -/
def buildThemeFallback (term : String) (keepModifica keepVigente : Bool) : String :=
  let q1 := ["CALL db.index.fulltext.queryNodes('ft_articulos', '" ++ term ++
               "~') YIELD node AS a",
             "MATCH (d:Documento)-[:TIENE_ARTICULO]->(a)"]
  let q2 := if keepModifica then
      q1 ++ ["MATCH (d)-[:MODIFICA]->(d2:Documento)", lo3Where]
    else q1
  let q3 := if keepVigente then
      q2 ++ ["WITH DISTINCT d", "WHERE coalesce(d.vigente,true) = true"]
    else q2
  strJoinNL (q3 ++ ["RETURN DISTINCT d.id AS id, d.titulo AS titulo",
                    "ORDER BY titulo"])

/-- The stripped constant query of the second fallback branch. -/
def derogaVigentesRgpdQuery : String :=
  "MATCH (d:Documento)-[:DEROGA]->(:Documento)\nWHERE coalesce(d.vigente,true) = true\nWITH DISTINCT d\nOPTIONAL MATCH (d)-[:MENCIONA_DOC]->(x:Documento)\nWHERE toLower(x.id) CONTAINS 'celex-32016r0679'\n   OR toLower(x.id) CONTAINS 'reglamento-ue-2016'\n   OR toLower(x.titulo) CONTAINS '2016/679'\nOPTIONAL MATCH (d)-[:MENCIONA]->(e:Entidad)\nWHERE toLower(coalesce(e.norm,e.nombre)) CONTAINS 'rgpd'\nWITH d, (x IS NOT NULL) OR (e IS NOT NULL) AS menciona_rgpd\nWHERE menciona_rgpd\nRETURN DISTINCT d.id AS id, d.titulo AS titulo\nORDER BY titulo"

/-- Model of `_fallback_from_question` (tools/eval_questions.py:103,
pages/0_🔎_Consulta.py:145): keyed on the lowercased, stripped question
(accents retained — this is `q.lower().strip()`, not `_norm`). -/
def fallbackFromQuestion (q : String) : Option String :=
  let qn : String := ⟨trimChars (lowerList q.data)⟩
  if containsSubstr qn "modific" &&
     (containsSubstr qn "lo 3/2018" || containsSubstr qn "lo 3 2018" ||
      containsSubstr qn "ley organica 3/2018" ||
      containsSubstr qn "ley orgánica 3/2018") then
    let term : String := match searchSobreGo qn.data with
      | some g => ⟨trimChars g⟩
      | none => "consentimiento"
    some (buildThemeFallback term true false)
  else if containsSubstr qn "vigen" && containsSubstr qn "derog" &&
          (containsSubstr qn "rgpd" || containsSubstr qn "2016/679" ||
           containsSubstr qn "reglamento 2016/679" || containsSubstr qn "gdpr") then
    some derogaVigentesRgpdQuery
  else none

-- ---------------------------------------------------------------------------
-- Orchestrators: `generate_cypher` (evaluation) and `_execute` (interactive)
-- ---------------------------------------------------------------------------

/-- The graph-execution collaborator: `exec cy = some n` models a run of
`run_cypher(cy)` returning `n` rows, `none` models the call raising. -/
structure ExecOracle where
  exec : String → Option Nat

/-- Model of `_quick_count` (tools/eval_questions.py:353) and `_count_rows`
(pages/0_🔎_Consulta.py:350): the row count, `-1` when execution raises. -/
def quickCount (o : ExecOracle) (cy : String) : Int :=
  match o.exec cy with
  | some n => (n : Int)
  | none => -1

/-- The four engine names of the evaluation harness. -/
inductive Engine
  | rules | rulesFb | gpt | gptFb
deriving DecidableEq

/-- Test `engine.startswith("rules")`. -/
def Engine.isRules : Engine → Bool
  | .rules | .rulesFb => true
  | _ => false

/-- Test `engine.startswith("gpt")`. -/
def Engine.isGpt : Engine → Bool
  | .gpt | .gptFb => true
  | _ => false

/-- Test `engine.endswith("_fb")`. -/
def Engine.isFb : Engine → Bool
  | .rulesFb | .gptFb => true
  | _ => false

/-- Result of `generate_cypher`, instrumented: `executed` lists every query
text passed to `run_cypher` (via `_quick_count`) during generation, in
order. -/
structure GenOut where
  cypher : String
  fbUsed : Bool
  executed : List String
deriving DecidableEq

/-- The final guard of `generate_cypher` (tools/eval_questions.py:402):
`if not is_safe_cypher(cy): return "", fb_used`, applied to whatever query
was chosen after the rescue step. -/
def finalizeGen (cy : String) (fb : Bool) (tr : List String) : GenOut :=
  if isSafeCypher cy then ⟨cy, fb, tr⟩ else ⟨"", fb, tr⟩

/-- Model of `generate_cypher` (tools/eval_questions.py:363).  `gptOut` is the reply
of `gpt_nl2cypher` (the external model boundary): the sentinel
`"FALLBACK"` or a query text.  `fallbackUsed` after the first block is
false here because the two `.isFb` engines set it only when the fallback
fires; each exit applies `finalizeGen`, the source's closing safety
check. -/
def generateCypher (o : ExecOracle) (gptOut q : String) (e : Engine) : GenOut :=
  let cy0 := if e.isRules then rulesGen q else gptOut
  let (cy1, fb1) :=
    if cy0 = "" ∨ cy0 = "FALLBACK" then
      if e.isFb then
        match fallbackFromQuestion q with
        | some fb => (fb, true)
        | none => (cy0, false)
      else (cy0, false)
    else (cy0, false)
  if cy1 = "" ∨ cy1 = "FALLBACK" then ⟨"", fb1, []⟩
  else
    let cy2 := fixLabelProps (normalizeReturn cy1)
    let cy3 := if e.isGpt then enforceDocumentReturn cy2 else cy2
    if e = .gptFb then
      let nGpt := quickCount o cy3
      if nGpt ≤ 1 then
        let cyR := fixLabelProps (normalizeReturn (rulesGen q))
        if isSafeCypher cyR then
          let nR := quickCount o cyR
          if nR > nGpt then finalizeGen cyR true [cy3, cyR]
          else finalizeGen cy3 fb1 [cy3, cyR]
        else finalizeGen cy3 fb1 [cy3]
      else finalizeGen cy3 fb1 [cy3]
    else finalizeGen cy3 fb1 []

/-- Outcome classes of the interactive `_execute` path. -/
inductive UiStatus
  | noQuery | blocked | execFailed | ok (rows : Nat)
deriving DecidableEq

/-- Result of `_execute`, instrumented like `GenOut`: `finalCypher` is the
session's `last_cypher` after the rescue step, `executed` every query text
passed to `run_cypher` (via `_count_rows` and `_run_and_show`). -/
structure UiOut where
  finalCypher : String
  tag : String
  status : UiStatus
  executed : List String
deriving DecidableEq

/-- Model of `_run_and_show` (pages/0_🔎_Consulta.py:328): empty → no query, unsafe
→ blocked without executing, else execute and report rows or the raised
error.  `tr1` carries the queries already executed by the rescue probes. -/
def runAndShow (o : ExecOracle) (cy1 tag1 : String) (tr1 : List String) : UiOut :=
  if trimStr cy1 = "" then ⟨cy1, tag1, .noQuery, tr1⟩
  else if !isSafeCypher cy1 then ⟨cy1, tag1, .blocked, tr1⟩
  else
    match o.exec cy1 with
    | none => ⟨cy1, tag1, .execFailed, tr1⟩
    | some n => ⟨cy1, tag1, .ok n, tr1 ++ [cy1]⟩

/-- Model of `_execute` (pages/0_🔎_Consulta.py:341): `auto` selects the
`engine == "Auto (GPT+Rescate)"` branch; `cy0` is the session's
`last_cypher`, `tag0` its `last_engine` (on rescue the tag becomes
`(last_engine or "auto") + "→rules"`). -/
def executeInteractive (o : ExecOracle) (auto : Bool) (q cy0 tag0 : String) : UiOut :=
  if cy0 = "" then ⟨cy0, tag0, .noQuery, []⟩
  else if auto then
    let n1 := quickCount o cy0
    if n1 ≤ 1 then
      let cyR := normalizeReturn (rulesGen q)
      let nR := quickCount o cyR
      if nR > n1 then
        runAndShow o cyR ((if tag0 = "" then "auto" else tag0) ++ "→rules") [cy0, cyR]
      else runAndShow o cy0 tag0 [cy0, cyR]
    else runAndShow o cy0 tag0 [cy0]
  else runAndShow o cy0 tag0 []

-- ---------------------------------------------------------------------------
-- Concrete inputs and oracles used by the concrete theorems below
-- ---------------------------------------------------------------------------

/-- An unsafe reply of the external model (contains ` DETACH DELETE `). -/
def gptBadReply : String := "MATCH (d:Documento) DETACH DELETE d RETURN d"

/-- An oracle giving one row to the sentinel query and zero rows to
everything else. -/
def oSentinelOne : ExecOracle :=
  ⟨fun s => if s = "RETURN 'Pregunta no reconocida' AS aviso" then some 1 else some 0⟩

/-- An unsafe session query for the interactive path. -/
def cyUiBad : String := "MATCH (n) DETACH DELETE n RETURN n"

/-- A question whose quoted term makes the rules query unsafe. -/
def qQuotedBad : String := "documentos que mencionan \"x set y\""

/-- A safe, too-narrow model reply (selects a single fixed id). -/
def gptNarrow : String :=
  "MATCH (d:Documento) WHERE d.id = 'zzz' RETURN d.id AS id, d.titulo AS titulo"

/-- The post-processed rules query of `qQuotedBad`. -/
def rulesQuotedBad : String := fixLabelProps (normalizeReturn (rulesGen qQuotedBad))

/-- An oracle giving five rows to `rulesQuotedBad` and zero rows to
everything else. -/
def oRulesFive : ExecOracle :=
  ⟨fun s => if s = rulesQuotedBad then some 5 else some 0⟩

/-- An oracle that raises on two fixed queries and returns zero rows
otherwise. -/
def oRaisePrimary : ExecOracle :=
  ⟨fun s => if s = "BROKEN PRIMARY" ∨ s = "BROKEN UI" then none else some 0⟩

/-- A zero-row oracle. -/
def oZero : ExecOracle := ⟨fun _ => some 0⟩

-- ===========================================================================
-- Theorems
-- ===========================================================================

-- Shared helper lemmas -------------------------------------------------------

theorem isPref_append (t b : List Char) : isPref t (t ++ b) = true := by
  induction t with
  | nil => rfl
  | cons c cs ih => simp [isPref, ih]

/-- A substring occurrence makes the scanner succeed. -/
theorem hasSub_append (t a b : List Char) : hasSub t (a ++ (t ++ b)) = true := by
  induction a with
  | nil =>
    simp only [List.nil_append]
    cases t with
    | nil => cases b <;> simp [hasSub, isPref]
    | cons c cs =>
      have h1 := isPref_append (c :: cs) b
      rw [List.cons_append] at h1
      simp [hasSub, h1]
  | cons c a' ih => simp [hasSub, ih]

/-- A successful `matchLabelDot` decomposes its input exactly into
label, dot, property and rest. -/
theorem matchLabelDot_sound {cs lab prop r : List Char}
    (h : matchLabelDot cs = some (lab, prop, r)) :
    cs = lab ++ '.' :: (prop ++ r) := by
  unfold matchLabelDot at h
  split at h
  case h_2 => exact absurd h (by simp)
  case h_1 c rest =>
    split at h
    case isFalse => exact absurd h (by simp)
    case isTrue hu =>
      split at h
      case h_2 => exact absurd h (by simp)
      case h_1 r3 heq =>
        split at h
        case isTrue => exact absurd h (by simp)
        case isFalse hp =>
          simp only [Option.some.injEq, Prod.mk.injEq] at h
          obtain ⟨hlab, hprop, hr⟩ := h
          subst hlab hprop hr
          have hrest : rest = rest.takeWhile isAsciiWordChar ++ '.' :: r3 := by
            conv_lhs => rw [← List.takeWhile_append_dropWhile isAsciiWordChar rest]
            rw [heq]
          simp only [List.cons_append, List.takeWhile_append_dropWhile]
          exact congrArg (c :: ·) hrest

/-- With an empty label→alias map the rewrite of
`_fix_label_props_to_alias` is the identity: every match is emitted
verbatim. -/
theorem subLDGo_nil (fuel : Nat) : ∀ (prevW : Bool) (cs : List Char),
    subLDGo [] fuel prevW cs = cs := by
  induction fuel with
  | zero => intro prevW cs; rfl
  | succ n ih =>
    intro prevW cs
    cases cs with
    | nil => cases prevW <;> rfl
    | cons c rest =>
      cases prevW with
      | true => simp only [subLDGo, Bool.not_true, Bool.false_eq_true,
          if_false, ih]
      | false =>
        simp only [subLDGo, Bool.not_false, if_true]
        cases hm : matchLabelDot (c :: rest) with
        | none => simp [ih]
        | some x =>
          obtain ⟨lab, prop, r⟩ := x
          simp only [lookupFirst, ih]
          exact (matchLabelDot_sound hm).symm

/-- For a gpt reply that is neither empty nor the FALLBACK sentinel, the
`gpt_fb` pipeline reduces to the rescue-step case analysis. -/
theorem genGptFb_spec (o : ExecOracle) (gptOut q : String)
    (h1 : gptOut ≠ "") (h2 : gptOut ≠ "FALLBACK") :
    generateCypher o gptOut q .gptFb =
      (let cy3 := enforceDocumentReturn (fixLabelProps (normalizeReturn gptOut))
       let cyR := fixLabelProps (normalizeReturn (rulesGen q))
       if quickCount o cy3 ≤ 1 then
         if isSafeCypher cyR then
           if quickCount o cyR > quickCount o cy3 then finalizeGen cyR true [cy3, cyR]
           else finalizeGen cy3 false [cy3, cyR]
         else finalizeGen cy3 false [cy3]
       else finalizeGen cy3 false [cy3]) := by
  have hne : ¬(gptOut = "" ∨ gptOut = "FALLBACK") := not_or.mpr ⟨h1, h2⟩
  have e1 : Engine.gptFb.isRules = false := rfl
  unfold generateCypher
  simp only [e1, Bool.false_eq_true, if_false, if_neg hne]
  rfl

/-- The interactive auto path (with a nonempty session query) reduces to
the rescue-step case analysis followed by `_run_and_show`. -/
theorem execAuto_spec (o : ExecOracle) (q cy0 tag0 : String) (hc : cy0 ≠ "") :
    executeInteractive o true q cy0 tag0 =
      (let cyR := normalizeReturn (rulesGen q)
       if quickCount o cy0 ≤ 1 then
         if quickCount o cyR > quickCount o cy0 then
           runAndShow o cyR ((if tag0 = "" then "auto" else tag0) ++ "→rules")
             [cy0, cyR]
         else runAndShow o cy0 tag0 [cy0, cyR]
       else runAndShow o cy0 tag0 [cy0]) := by
  unfold executeInteractive
  simp only [if_neg hc]
  rfl

/-- The closing safety gate keeps a safe query, blanks an unsafe one, and
passes the fallback flag through. -/
theorem finalizeGen_fields (cy : String) (fb : Bool) (tr : List String) :
    (finalizeGen cy fb tr).cypher = (if isSafeCypher cy then cy else "") ∧
    (finalizeGen cy fb tr).fbUsed = fb := by
  unfold finalizeGen
  split <;> simp_all

/-- Fact: `_run_and_show` never changes the chosen query or the engine tag. -/
theorem runAndShow_fields (o : ExecOracle) (cy tag : String) (tr : List String) :
    (runAndShow o cy tag tr).finalCypher = cy ∧ (runAndShow o cy tag tr).tag = tag := by
  unfold runAndShow
  split
  · exact ⟨rfl, rfl⟩
  · split
    · exact ⟨rfl, rfl⟩
    · split <;> exact ⟨rfl, rfl⟩

-- Claim C3 ------------------------------------------------------------------

/-- C3 counterexample: the claim says `is_safe_cypher` returns false for a
denied token surrounded by ANY whitespace (including newline or tab), but
the code only matches literal space characters: `create` surrounded by
newlines is accepted as safe. -/
theorem c3_whitespace_counterexample :
    isSafeCypher "RETURN 1\ncreate\n(n)" = true ∧
    ("RETURN 1\ncreate\n(n)" : String).data =
      "RETURN 1".data ++ '\n' :: ("create".data ++ '\n' :: "(n)".data) := by
  constructor <;> decide

/-- C3 (amended): `is_safe_cypher` returns false for every query whose
space-padded lowercase text contains a deny-list token — i.e. a token
surrounded by literal space characters (U+0020), the padding supplying one
at the start and end of the text; newline and tab do not count — and it
returns true for the minimal read-only query
`MATCH (d:Documento) RETURN d.id AS id`. -/
theorem c3_space_delimited_tokens (cy t : String) (ht : t ∈ badTokens)
    (w₁ w₂ : List Char) (h : paddedLower cy = w₁ ++ (t.data ++ w₂)) :
    isSafeCypher cy = false ∧
    isSafeCypher "MATCH (d:Documento) RETURN d.id AS id" = true := by
  refine ⟨?_, by decide⟩
  have hs : hasSub t.data (paddedLower cy) = true := by
    rw [h]; exact hasSub_append t.data w₁ w₂
  have : badTokens.any (fun tok => hasSub tok.data (paddedLower cy)) = true :=
    List.any_eq_true.mpr ⟨t, ht, hs⟩
  simp [isSafeCypher, this]

/-- Witness for C3 (amended) at a concrete unsafe query. -/
theorem c3_space_delimited_tokens_witness :
    isSafeCypher "MATCH (x) DELETE x" = false ∧
    isSafeCypher "MATCH (d:Documento) RETURN d.id AS id" = true :=
  c3_space_delimited_tokens "MATCH (x) DELETE x" " delete " (by decide)
    " match (x)".data "x ".data (by decide)

-- Claim C4 ------------------------------------------------------------------

/-- C4 counterexample: the claim says recall is 0.0 when gold is empty and
pred non-empty; `prf` returns recall 1.0 there (`1.0 if pred else 1.0`). -/
theorem c4_gold_empty_counterexample :
    (prf {"a"} ∅).2.1 = 1 ∧ (prf {"a"} ∅).2.1 ≠ 0 := by
  constructor <;> decide

/-- C4 (amended): `prf` computes recall as `|pred ∩ gold| / |gold|` when
gold is non-empty, and recall is 1.0 whenever gold is empty — both when
pred is empty and when it is non-empty. -/
theorem c4_recall_formula (pred gold : Finset String) (h : gold ≠ ∅) :
    (prf pred gold).2.1 = ((pred ∩ gold).card : ℚ) / (gold.card : ℚ) ∧
    (prf pred ∅).2.1 = 1 := by
  constructor
  · have hcard : gold.card ≠ 0 := by
      simpa [Finset.card_eq_zero] using h
    simp only [prf, orOne, h, and_false, if_false, if_neg h, if_neg hcard]
    simp [h]
  · by_cases hp : pred = ∅ <;> simp [prf, hp]

/-- Witness for C4 (amended) at concrete sets. -/
theorem c4_recall_formula_witness :
    (prf {"a"} {"b"}).2.1 = ((({"a"} : Finset String) ∩ {"b"}).card : ℚ) /
      ((({"b"} : Finset String)).card : ℚ) ∧
    (prf {"a"} ∅).2.1 = 1 :=
  c4_recall_formula {"a"} {"b"} (by decide)

-- Claim C5 ------------------------------------------------------------------

/-- C5: the boundary cases of `prf`: both sets empty gives (1,1,1); gold
empty with pred non-empty gives (0,1,0); pred empty with gold non-empty
gives (0,0,0). -/
theorem c5_boundary_cases (pred gold : Finset String)
    (hp : pred ≠ ∅) (hg : gold ≠ ∅) :
    prf ∅ ∅ = (1, 1, 1) ∧ prf pred ∅ = (0, 1, 0) ∧ prf ∅ gold = (0, 0, 0) := by
  refine ⟨by decide, ?_, ?_⟩
  · simp [prf, hp]
  · have hcard : gold.card ≠ 0 := by
      simpa [Finset.card_eq_zero] using hg
    simp [prf, hg, orOne, hcard]

/-- Witness for C5 at concrete sets. -/
theorem c5_boundary_cases_witness :
    prf ∅ ∅ = (1, 1, 1) ∧ prf {"a"} ∅ = (0, 1, 0) ∧
    prf ∅ {"b"} = (0, 0, 0) :=
  c5_boundary_cases {"a"} {"b"} (by decide) (by decide)

-- Claim C6 ------------------------------------------------------------------

/-- C6 counterexample: the composed rewrite
`_fix_label_props_to_alias ∘ _normalize_return` is not idempotent.  On
`MATCH (a:L) MATCH (b:P) RETURN L.P.q` one application yields
`... RETURN a.P.q` and a second application rewrites the freshly exposed
`P.q` to `b.q`. -/
theorem c6_idempotence_counterexample :
    fixLabelProps (normalizeReturn (fixLabelProps (normalizeReturn
        "MATCH (a:L) MATCH (b:P) RETURN L.P.q"))) ≠
      fixLabelProps (normalizeReturn "MATCH (a:L) MATCH (b:P) RETURN L.P.q") ∧
    fixLabelProps (normalizeReturn "MATCH (a:L) MATCH (b:P) RETURN L.P.q") =
      "MATCH (a:L) MATCH (b:P) RETURN a.P.q" := by
  constructor <;> decide

/-- C6 (amended): each rewrite returns its input unchanged when its
pattern is absent — `_normalize_return` when no `MATCH (v:Documento)`
alias is found, `_fix_label_props_to_alias` when no `(alias:Label)` node
pattern is found — and hence on such inputs the composed rewrite is the
identity and in particular idempotent.  Unrestricted idempotence is
refuted by the counterexample. -/
theorem c6_noop_and_idempotent_on_patternless (cy : String)
    (h1 : findDocVarGo (cy.data.length + 1) false cy.data = none)
    (h2 : collectNodePats cy = []) :
    normalizeReturn cy = cy ∧ fixLabelProps cy = cy ∧
    fixLabelProps (normalizeReturn cy) = cy ∧
    fixLabelProps (normalizeReturn (fixLabelProps (normalizeReturn cy))) =
      fixLabelProps (normalizeReturn cy) := by
  have hn : normalizeReturn cy = cy := by
    unfold normalizeReturn
    rw [h1]
  have hf : fixLabelProps cy = cy := by
    unfold fixLabelProps
    rw [h2]
    show (⟨subLDGo [] (cy.data.length + 1) false cy.data⟩ : String) = cy
    rw [subLDGo_nil]
  exact ⟨hn, hf, by rw [hn, hf], by rw [hn, hf, hn, hf]⟩

/-- Witness for C6 (amended) at a concrete patternless query. -/
theorem c6_noop_witness :
    normalizeReturn "RETURN 1" = "RETURN 1" ∧
    fixLabelProps "RETURN 1" = "RETURN 1" ∧
    fixLabelProps (normalizeReturn "RETURN 1") = "RETURN 1" ∧
    fixLabelProps (normalizeReturn (fixLabelProps (normalizeReturn "RETURN 1"))) =
      fixLabelProps (normalizeReturn "RETURN 1") :=
  c6_noop_and_idempotent_on_patternless "RETURN 1" (by decide) (by decide)

-- Claim C7 ------------------------------------------------------------------

set_option maxRecDepth 20000 in
/-- C7 counterexample: the claim says the HAS_ARTICLES (articul) branch is
taken only when a canonical term was resolved; `_rules "articulos"` takes
it with an empty term (the query gets `CONTAINS ''`), and
`_doc_term_from_question` resolves nothing. -/
theorem c7_articles_without_term :
    rulesGen "articulos" =
      "MATCH (d:Documento)-[:TIENE_ARTICULO]->(a:Articulo)\nWHERE toLower(d.id) CONTAINS '' OR toLower(d.titulo) CONTAINS ''\nRETURN d.id AS doc, a.numero AS numero, a.titulo AS titulo\nORDER BY toInteger(coalesce(a.numero,'0')) ASC" ∧
    docTermFromQuestion "articulos" = "" := by
  constructor <;> decide

/-- C7 (amended): when none of the four leading special semantic patterns
of `_rules` matches, intent selection follows the fixed priority
MENTIONS, then MODIFIES, then REPEALS, then HAS_ARTICLES — a question
matching several roots gets the highest-priority matching intent's query —
and the HAS_ARTICLES branch fires whenever the articul root matches,
whether or not a canonical term was resolved (an unresolved term yields
empty `CONTAINS ''` filters). -/
theorem c7_priority_order (q : String)
    (h1 : (containsSubstr (normTxt q) "rgpd" || containsSubstr (normTxt q) "gdpr" ||
           containsSubstr (normTxt q) "reglamento 2016 679") = false)
    (h2 : (containsSubstr (normTxt q) "aepd" ||
           containsSubstr (normTxt q) "agencia espanola de proteccion de datos") = false)
    (h3 : (containsSubstr (normTxt q) "vigent" ||
           containsSubstr (normTxt q) "actual") = false)
    (h4 : (containsSubstr (normTxt q) "proteccion de datos" ||
           containsSubstr (normTxt q) "protección de datos") = false) :
    (hasRoot q "mencion" = true →
       rulesGen q =
         "MATCH (d:Documento)-[:MENCIONA_DOC|MENCIONA]->(x)\nWHERE toLower(x.id) CONTAINS '" ++
           idLikeOf (docTermFromQuestion q) ++
           "'\n   OR toLower(coalesce(x.titulo, x.nombre)) CONTAINS '" ++
           docTermFromQuestion q ++
           "'\nRETURN DISTINCT d.id AS id, d.titulo AS titulo\nORDER BY titulo") ∧
    (hasRoot q "mencion" = false → hasRoot q "modific" = true →
       rulesGen q =
         "MATCH (a:Documento)-[:MODIFICA]->(b:Documento)\nRETURN a.id AS origen, b.id AS destino, 'MODIFICA' AS relacion\nORDER BY origen") ∧
    (hasRoot q "mencion" = false → hasRoot q "modific" = false →
       hasRoot q "derog" = true →
       rulesGen q =
         "MATCH (a:Documento)-[:DEROGA]->(b:Documento)\nRETURN a.id AS origen, b.id AS destino, 'DEROGA' AS relacion\nORDER BY origen") ∧
    (hasRoot q "mencion" = false → hasRoot q "modific" = false →
       hasRoot q "derog" = false → hasRoot q "articul" = true →
       rulesGen q =
         "MATCH (d:Documento)-[:TIENE_ARTICULO]->(a:Articulo)\nWHERE toLower(d.id) CONTAINS '" ++
           idLikeOf (docTermFromQuestion q) ++ "' OR toLower(d.titulo) CONTAINS '" ++
           docTermFromQuestion q ++
           "'\nRETURN d.id AS doc, a.numero AS numero, a.titulo AS titulo\nORDER BY toInteger(coalesce(a.numero,'0')) ASC") := by
  unfold rulesGen
  simp only [h1, h2, h3, h4, Bool.false_eq_true, if_false]
  refine ⟨?_, ?_, ?_, ?_⟩
  · intro hm; simp [hm]
  · intro hm hmod; simp [hm, hmod]
  · intro hm hmod hd; simp [hm, hmod, hd]
  · intro hm hmod hd ha; simp [hm, hmod, hd, ha]

set_option maxRecDepth 20000 in
/-- Witness for C7 (amended): a question matching the mencion, modific and
derog roots at once yields the MENTIONS query. -/
theorem c7_priority_order_witness :
    rulesGen "normas que mencionan y modifican y derogan la ley" =
      "MATCH (d:Documento)-[:MENCIONA_DOC|MENCIONA]->(x)\nWHERE toLower(x.id) CONTAINS ''\n   OR toLower(coalesce(x.titulo, x.nombre)) CONTAINS ''\nRETURN DISTINCT d.id AS id, d.titulo AS titulo\nORDER BY titulo" :=
  Eq.trans
    ((c7_priority_order "normas que mencionan y modifican y derogan la ley"
        (by decide) (by decide) (by decide) (by decide)).1 (by decide))
    (by decide)

-- Claim C8 ------------------------------------------------------------------

/-- C8: a question matching none of `_rules`' patterns yields the constant
sentinel query, which passes the safety validator (the model is total, so
no exception path exists). -/
theorem c8_unrecognized_sentinel (q : String)
    (h1 : (containsSubstr (normTxt q) "rgpd" || containsSubstr (normTxt q) "gdpr" ||
           containsSubstr (normTxt q) "reglamento 2016 679") = false)
    (h2 : (containsSubstr (normTxt q) "aepd" ||
           containsSubstr (normTxt q) "agencia espanola de proteccion de datos") = false)
    (h3 : (containsSubstr (normTxt q) "vigent" ||
           containsSubstr (normTxt q) "actual") = false)
    (h4 : (containsSubstr (normTxt q) "proteccion de datos" ||
           containsSubstr (normTxt q) "protección de datos") = false)
    (h5 : hasRoot q "mencion" = false) (h6 : hasRoot q "modific" = false)
    (h7 : hasRoot q "derog" = false) (h8 : hasRoot q "articul" = false)
    (h9 : hasRoot q "trat" = false) :
    rulesGen q = "RETURN 'Pregunta no reconocida' AS aviso" ∧
    isSafeCypher "RETURN 'Pregunta no reconocida' AS aviso" = true := by
  refine ⟨?_, by decide⟩
  have h4a : containsSubstr (normTxt q) "proteccion de datos" = false :=
    (Bool.or_eq_false_iff.mp h4).1
  have h4b : containsSubstr (normTxt q) "protección de datos" = false :=
    (Bool.or_eq_false_iff.mp h4).2
  unfold rulesGen
  simp [h1, h2, h3, h4a, h4b, h5, h6, h7, h8, h9]

/-- Witness for C8 at a concrete unrecognizable question. -/
theorem c8_unrecognized_sentinel_witness :
    rulesGen "hola" = "RETURN 'Pregunta no reconocida' AS aviso" ∧
    isSafeCypher "RETURN 'Pregunta no reconocida' AS aviso" = true :=
  c8_unrecognized_sentinel "hola" (by decide) (by decide) (by decide)
    (by decide) (by decide) (by decide) (by decide) (by decide) (by decide)

-- Claim C9 ------------------------------------------------------------------

/-- C9: synonym resolution is first-match over the ordered table —
whenever `_apply_synonyms` resolves a canonical term,
`_doc_term_from_question` returns exactly it — and any question containing
`rgpd` or `gdpr` as a whole word after normalization resolves to the
canonical term `reglamento ue 2016 679`. -/
theorem c9_synonym_resolution (q c q' : String)
    (h : applySynonyms (normTxt q) = some c)
    (h' : (searchWord (normTxt q') "rgpd" || searchWord (normTxt q') "gdpr") = true) :
    docTermFromQuestion q = c ∧
    docTermFromQuestion q' = "reglamento ue 2016 679" := by
  constructor
  · unfold docTermFromQuestion
    rw [h]
  · have hsyn : applySynonyms (normTxt q') = some "reglamento ue 2016 679" := by
      unfold applySynonyms
      rcases Bool.or_eq_true_iff.mp h' with hr | hg
      · rw [if_pos hr]
      · by_cases hr : searchWord (normTxt q') "rgpd" = true
        · rw [if_pos hr]
        · rw [if_neg hr, if_pos hg]
    unfold docTermFromQuestion
    rw [hsyn]

/-- Witness for C9 at concrete questions containing RGPD and GDPR. -/
theorem c9_synonym_resolution_witness :
    docTermFromQuestion "¿Qué documentos mencionan RGPD?" = "reglamento ue 2016 679" ∧
    docTermFromQuestion "normas donde aplica el GDPR" = "reglamento ue 2016 679" :=
  c9_synonym_resolution "¿Qué documentos mencionan RGPD?" "reglamento ue 2016 679"
    "normas donde aplica el GDPR" (by decide) (by decide)

-- Claim C1 ------------------------------------------------------------------

set_option maxRecDepth 40000 in
/-- C1 (code bug demonstration): in engine `gpt_fb`, `generate_cypher`
row-counts the primary query via `_quick_count` — hence calls `run_cypher`
on it — BEFORE the `is_safe_cypher` check (which only gates the returned
query), and the interactive auto path likewise executes `last_cypher` via
`_count_rows` before `_run_and_show`'s safety gate: in both paths the
executed-query trace contains a query failing `is_safe_cypher`. -/
theorem c1_probe_executes_unchecked_query :
    ((generateCypher oSentinelOne gptBadReply "hola" .gptFb).executed.any
        fun c => !isSafeCypher c) = true ∧
    ((executeInteractive oSentinelOne true "hola" cyUiBad "auto(gpt)").executed.any
        fun c => !isSafeCypher c) = true := by
  constructor <;> decide

-- Claim C2 ------------------------------------------------------------------

set_option maxRecDepth 40000 in
/-- C2 counterexample: in `generate_cypher` (`gpt_fb`) the primary's row
count is 0 ≤ 1 and the rules query would yield 5 > 0 rows under the
oracle, yet the primary is retained (and the fallback flag stays false)
because the rules query fails `is_safe_cypher` — a guard the claim's
"iff" does not mention. -/
theorem c2_guarded_rules_counterexample :
    quickCount oRulesFive
        ((generateCypher oRulesFive gptNarrow qQuotedBad .gptFb).cypher) ≤ 1 ∧
    quickCount oRulesFive rulesQuotedBad >
      quickCount oRulesFive
        ((generateCypher oRulesFive gptNarrow qQuotedBad .gptFb).cypher) ∧
    (generateCypher oRulesFive gptNarrow qQuotedBad .gptFb).cypher ≠ rulesQuotedBad ∧
    (generateCypher oRulesFive gptNarrow qQuotedBad .gptFb).fbUsed = false ∧
    isSafeCypher rulesQuotedBad = false := by
  refine ⟨by decide, by decide, by decide, by decide, by decide⟩

/-- C2 (amended): the rescue replaces the primary iff the primary's row
count is ≤ 1 and the post-processed rules query yields a strictly larger
row count, where in `generate_cypher` (`gpt_fb`) the rules query is
row-counted only after passing `is_safe_cypher` (an unsafe rules query is
never counted, so no replacement happens); the interactive auto path has
no such guard.  In every other case the primary query and the
fallback-flag/engine-tag are retained. -/
theorem c2_rescue_iff (o : ExecOracle) (gptOut q cy0 tag0 : String)
    (h1 : gptOut ≠ "") (h2 : gptOut ≠ "FALLBACK") (hc : cy0 ≠ "") :
    (let cy3 := enforceDocumentReturn (fixLabelProps (normalizeReturn gptOut))
     let cyR := fixLabelProps (normalizeReturn (rulesGen q))
     (generateCypher o gptOut q .gptFb).cypher =
        (if quickCount o cy3 ≤ 1 ∧ isSafeCypher cyR = true ∧
            quickCount o cyR > quickCount o cy3
         then cyR else if isSafeCypher cy3 then cy3 else "") ∧
     (generateCypher o gptOut q .gptFb).fbUsed =
        (if quickCount o cy3 ≤ 1 ∧ isSafeCypher cyR = true ∧
            quickCount o cyR > quickCount o cy3
         then true else false)) ∧
    (let cyU := normalizeReturn (rulesGen q)
     (executeInteractive o true q cy0 tag0).finalCypher =
        (if quickCount o cy0 ≤ 1 ∧ quickCount o cyU > quickCount o cy0
         then cyU else cy0) ∧
     (executeInteractive o true q cy0 tag0).tag =
        (if quickCount o cy0 ≤ 1 ∧ quickCount o cyU > quickCount o cy0
         then (if tag0 = "" then "auto" else tag0) ++ "→rules" else tag0)) := by
  constructor
  · rw [genGptFb_spec o gptOut q h1 h2]
    by_cases hA : quickCount o
        (enforceDocumentReturn (fixLabelProps (normalizeReturn gptOut))) ≤ 1
    · cases hS : isSafeCypher (fixLabelProps (normalizeReturn (rulesGen q)))
      · simp [hA, hS, finalizeGen_fields]
      · by_cases hG : quickCount o (fixLabelProps (normalizeReturn (rulesGen q))) >
            quickCount o (enforceDocumentReturn (fixLabelProps (normalizeReturn gptOut)))
        · simp [hA, hS, hG, finalizeGen_fields, hS]
        · simp [hA, hS, hG, finalizeGen_fields]
    · simp [hA, finalizeGen_fields]
  · rw [execAuto_spec o q cy0 tag0 hc]
    by_cases hA : quickCount o cy0 ≤ 1
    · by_cases hG : quickCount o (normalizeReturn (rulesGen q)) > quickCount o cy0
      · simp [hA, hG, runAndShow_fields]
      · simp [hA, hG, runAndShow_fields]
    · simp [hA, runAndShow_fields]

/-- Witness for C2 (amended) at concrete inputs (primary safe and
zero-rowed, rules sentinel safe and zero-rowed: no replacement). -/
theorem c2_rescue_iff_witness :
    (let cy3 := enforceDocumentReturn (fixLabelProps (normalizeReturn "RETURN 1"))
     let cyR := fixLabelProps (normalizeReturn (rulesGen "hola"))
     (generateCypher oZero "RETURN 1" "hola" .gptFb).cypher =
        (if quickCount oZero cy3 ≤ 1 ∧ isSafeCypher cyR = true ∧
            quickCount oZero cyR > quickCount oZero cy3
         then cyR else if isSafeCypher cy3 then cy3 else "") ∧
     (generateCypher oZero "RETURN 1" "hola" .gptFb).fbUsed =
        (if quickCount oZero cy3 ≤ 1 ∧ isSafeCypher cyR = true ∧
            quickCount oZero cyR > quickCount oZero cy3
         then true else false)) ∧
    (let cyU := normalizeReturn (rulesGen "hola")
     (executeInteractive oZero true "hola" "RETURN 2" "t").finalCypher =
        (if quickCount oZero "RETURN 2" ≤ 1 ∧
            quickCount oZero cyU > quickCount oZero "RETURN 2"
         then cyU else "RETURN 2") ∧
     (executeInteractive oZero true "hola" "RETURN 2" "t").tag =
        (if quickCount oZero "RETURN 2" ≤ 1 ∧
            quickCount oZero cyU > quickCount oZero "RETURN 2"
         then (if ("t" : String) = "" then "auto" else "t") ++ "→rules" else "t")) :=
  c2_rescue_iff oZero "RETURN 1" "hola" "RETURN 2" "t"
    (by decide) (by decide) (by decide)

-- Claim C10 -----------------------------------------------------------------

/-- C10: a primary query whose execution raises gets row count `-1` (not an
execution error), so a safe rules alternate that executes successfully —
returning any number of rows, zero included — strictly exceeds it and
silently replaces it, in `generate_cypher` (`gpt_fb`) and the interactive
auto path alike. -/
theorem c10_error_primary_rescued (o : ExecOracle) (gptOut q cy0 tag0 : String)
    (n m : Nat) (h1 : gptOut ≠ "") (h2 : gptOut ≠ "FALLBACK") (hc : cy0 ≠ "")
    (hfail : o.exec (enforceDocumentReturn (fixLabelProps (normalizeReturn gptOut))) = none)
    (hsafe : isSafeCypher (fixLabelProps (normalizeReturn (rulesGen q))) = true)
    (hok : o.exec (fixLabelProps (normalizeReturn (rulesGen q))) = some n)
    (hfail' : o.exec cy0 = none)
    (hok' : o.exec (normalizeReturn (rulesGen q)) = some m) :
    (generateCypher o gptOut q .gptFb).cypher =
      fixLabelProps (normalizeReturn (rulesGen q)) ∧
    (generateCypher o gptOut q .gptFb).fbUsed = true ∧
    (executeInteractive o true q cy0 tag0).finalCypher =
      normalizeReturn (rulesGen q) := by
  have hqc : quickCount o
      (enforceDocumentReturn (fixLabelProps (normalizeReturn gptOut))) = -1 := by
    simp [quickCount, hfail]
  have hqr : quickCount o (fixLabelProps (normalizeReturn (rulesGen q))) = (n : Int) := by
    simp [quickCount, hok]
  have hqc' : quickCount o cy0 = -1 := by simp [quickCount, hfail']
  have hqr' : quickCount o (normalizeReturn (rulesGen q)) = (m : Int) := by
    simp [quickCount, hok']
  have hgt : (n : Int) > -1 := by omega
  have hgt' : (m : Int) > -1 := by omega
  refine ⟨?_, ?_, ?_⟩
  · rw [genGptFb_spec o gptOut q h1 h2]
    simp [hqc, hqr, hsafe, hgt, finalizeGen_fields]
  · rw [genGptFb_spec o gptOut q h1 h2]
    simp [hqc, hqr, hsafe, hgt, finalizeGen_fields]
  · rw [execAuto_spec o q cy0 tag0 hc]
    simp [hqc', hqr', hgt', runAndShow_fields]

set_option maxRecDepth 40000 in
/-- Witness for C10 at concrete inputs: both the primary and the session
query raise, the rules sentinel returns zero rows and replaces them. -/
theorem c10_error_primary_rescued_witness :
    (generateCypher oRaisePrimary "BROKEN PRIMARY" "hola" .gptFb).cypher =
      fixLabelProps (normalizeReturn (rulesGen "hola")) ∧
    (generateCypher oRaisePrimary "BROKEN PRIMARY" "hola" .gptFb).fbUsed = true ∧
    (executeInteractive oRaisePrimary true "hola" "BROKEN UI" "auto(gpt)").finalCypher =
      normalizeReturn (rulesGen "hola") :=
  c10_error_primary_rescued oRaisePrimary "BROKEN PRIMARY" "hola" "BROKEN UI"
    "auto(gpt)" 0 0 (by decide) (by decide) (by decide) (by decide) (by decide)
    (by decide) (by decide) (by decide)

end TFM
